import Mathlib

/- Shallow embedding of src/app.py: a small FastAPI service that reacts to
   Pipedrive webhooks (posting a note on stage changes) and runs a daily
   sweep over open deals (sending follow-up emails, posting notes and
   scheduling call activities).

   Modelling conventions:
   - Python values that may arrive as int, str or dict are modelled by `PV`;
     an absent dictionary key and JSON null are both modelled by `Option`.
   - Python exceptions are modelled by `Except String` (or an `Option String`
     exception slot when effects performed before the raise must be kept).
   - HTTP collaborators (person lookup, deal listing pages) and the email
     capability are parameters of the sweep context `SweepCtx`; a lookup that
     raises (timeout / non-2xx) is a parameter returning `Except.error`.
   - Calendar dates are modelled as integer day numbers: a parsed
     `last_activity_date` is the day number, `today` is a context parameter,
     and the day difference is integer subtraction. -/

inductive PV where
  | pInt (n : Int)
  | pStr (s : String)
  | pDict (value : Option PV) (id : Option PV)

/- Python truthiness for the values we model (0, "" and the empty dict are
   falsy; a dict with at least one key is truthy). -/
def PV.truthy : PV → Bool
  | .pInt n => n != 0
  | .pStr s => s != ""
  | .pDict v i => v.isSome || i.isSome

def pvOptTruthy : Option PV → Bool
  | none => false
  | some v => v.truthy

/- `_extract_id` inside add_note: for a dict, `val.get("value") or
   val.get("id")`; for anything else the value itself. -/
def extract_id : PV → Option PV
  | .pDict v i =>
    match v with
    | some x => if x.truthy then some x else i
    | none => i
  | v => some v

/- Decimal digits of a Python int literal (none on a non-digit or on the
   empty string). -/
def digitsToNat : List Char → Option Nat
  | [] => none
  | cs => cs.foldl (fun acc c =>
      match acc with
      | none => none
      | some n => if c.isDigit then some (n * 10 + (c.toNat - 48)) else none) (some 0)

/- Python `int(s)` on a string: an optional sign followed by digits (the
   source never feeds it surrounding whitespace or underscores). -/
def parseIntStr (s : String) : Option Int :=
  match s.data with
  | '-' :: rest => (digitsToNat rest).map fun n => -(n : Int)
  | '+' :: rest => (digitsToNat rest).map fun n => (n : Int)
  | cs => (digitsToNat cs).map fun n => (n : Int)

/- Python `int(x)` as applied to extracted ids: succeeds on ints and on
   numeric strings, raises (modelled as `none`) on None and on dicts. -/
def pyInt : Option PV → Option Int
  | some (.pInt n) => some n
  | some (.pStr s) => parseIntStr s
  | _ => none

/- Python `str(x)` as applied to the lead id (never raises; the exact dict
   rendering is irrelevant to every caller in the source). -/
def pyStr : Option PV → String
  | none => "None"
  | some (.pInt n) => toString n
  | some (.pStr s) => s
  | some (.pDict _ _) => "dict"

/- The JSON body posted to POST /notes. -/
structure Note where
  content : PV
  deal_id : Option Int := none
  person_id : Option Int := none
  org_id : Option Int := none
  lead_id : Option String := none

def noLinkError : String := "Note mangler link: deal_id/person_id/org_id/lead_id"

/- add_note(content, deal_id, person_id, org_id, lead_id): sets at most one
   link key, trying deal_id, person_id, org_id, lead_id in that order; an id
   whose int() coercion fails is skipped (try/except pass); raises
   RuntimeError when no link key was set.  A successful call posts the
   payload; the returned Note is that payload. -/
def add_note (content : PV) (deal_id person_id org_id lead_id : Option PV) :
    Except String Note :=
  let dk : Option Int := deal_id.bind fun v => pyInt (extract_id v)
  let pk : Option Int := if dk.isSome then none
    else person_id.bind fun v => pyInt (extract_id v)
  let og : Option Int := if dk.isSome || pk.isSome then none
    else org_id.bind fun v => pyInt (extract_id v)
  let lk : Option String := if dk.isSome || pk.isSome || og.isSome then none
    else lead_id.map fun v => pyStr (extract_id v)
  if dk.isNone && pk.isNone && og.isNone && lk.isNone then
    Except.error noLinkError
  else
    Except.ok { content := content, deal_id := dk, person_id := pk, org_id := og, lead_id := lk }

/- ---------- webhook handler ---------- -/

/- One slot of the webhook body: the key may be absent, hold JSON null, hold
   a non-mapping scalar, or hold a mapping.  Python raises AttributeError
   when `.get` is invoked on a present null or non-mapping value; a merely
   absent key reads back as None (or as the `.get(key, default)` default)
   without raising. -/
inductive WField (α : Type) where
  | absent
  | wnull
  | scalar (v : PV)
  | dict (d : α)

structure Snap where
  id : Option PV := none
  stage_id : Option PV := none

structure MetaBlk where
  id : Option PV := none

structure DataBlk where
  current : WField Snap := .absent
  previous : WField Snap := .absent

/- A webhook body that parsed as JSON. -/
structure WPayload where
  meta : WField MetaBlk := .absent
  current : WField Snap := .absent
  previous : WField Snap := .absent
  data : WField DataBlk := .absent

def snapTruthy (s : Snap) : Bool := s.id.isSome || s.stage_id.isSome

/- Python truthiness of a slot's value (an absent key reads back as None,
   which is falsy; dict truthiness is non-emptiness). -/
def wfTruthy {α : Type} (t : α → Bool) : WField α → Bool
  | .absent => false
  | .wnull => false
  | .scalar v => v.truthy
  | .dict d => t d

/- `meta = payload.get("meta") or {}` followed by the `.get` calls on the
   result (first one at `meta.get("action")`, line 114): a truthy
   non-mapping meta raises AttributeError there; every falsy value collapses
   to {} before any `.get`. -/
def orMeta : WField MetaBlk → Except String MetaBlk
  | .absent => Except.ok {}
  | .wnull => Except.ok {}
  | .scalar v => if v.truthy then Except.error "AttributeError" else Except.ok {}
  | .dict m => Except.ok m

/- `payload.get("data", {}).get(key)`: the default covers only an absent
   data key, so a present null or non-mapping data value raises
   AttributeError the moment `.get` runs on it. -/
def dataGet (data : WField DataBlk) (proj : DataBlk → WField Snap) :
    Except String (WField Snap) :=
  match data with
  | .absent => Except.ok .absent
  | .wnull => Except.error "AttributeError"
  | .scalar _ => Except.error "AttributeError"
  | .dict d => Except.ok (proj d)

/- `payload.get(key) or payload.get("data", {}).get(key) or {}` (lines
   117-118): the direct key short-circuits when truthy, leaving data
   untouched; otherwise the data side is dereferenced (and may raise); a
   falsy result collapses to {}.  The resolved value can still be a truthy
   non-mapping, which only raises later when `.get` runs on it. -/
def resolve_snap (direct : WField Snap) (data : WField DataBlk)
    (proj : DataBlk → WField Snap) : Except String (WField Snap) :=
  if wfTruthy snapTruthy direct then Except.ok direct
  else
    match dataGet data proj with
    | Except.error e => Except.error e
    | Except.ok b =>
      if wfTruthy snapTruthy b then Except.ok b else Except.ok (.dict {})

/- `.get` on a resolved current/previous value (lines 120-122): raises
   AttributeError when that value is not a mapping. -/
def snapGet (w : WField Snap) (proj : Snap → Option PV) : Except String (Option PV) :=
  match w with
  | .dict s => Except.ok (proj s)
  | .absent => Except.ok none
  | _ => Except.error "AttributeError"

/- Python `a or b` over optional scalar values. -/
def pyOrPV (a b : Option PV) : Option PV :=
  match a with
  | some v => if v.truthy then some v else b
  | none => b

/- The f-string written by the webhook background task (note the literal
   arrow character and the trailing Z from the source). -/
def webhookMsg (prev cur : Option PV) (now : String) : String :=
  "Webhook: stage " ++ pyStr prev ++ " → " ++ pyStr cur ++ " @ " ++ now ++ "Z"

/- `_write_note_bg`: returns early when deal_id is falsy; otherwise calls
   `add_note(deal_id, msg)` — the source passes the deal id positionally into
   the `content` parameter and the message into the `deal_id` parameter —
   and swallows any exception (caught and logged).  The returned list holds
   the notes actually posted. -/
def write_note_bg (deal_id : Option PV) (prev cur : Option PV) (now : String) : List Note :=
  match deal_id with
  | none => []
  | some dv =>
    if dv.truthy then
      match add_note dv (some (.pStr (webhookMsg prev cur now))) none none none with
      | Except.ok n => [n]
      | Except.error _ => []
    else []

structure WebhookResult where
  ok : Bool
  error : Option String := none

/- POST /webhook.  A `none` payload models a body that fails JSON parsing
   (caught, acknowledged with ok=false).  After parsing, the handler
   dereferences meta (line 114), resolves current and previous (lines
   117-118, possibly dereferencing data), then reads the ids off the
   resolved snapshots (lines 120-122); any of those `.get` calls on a
   null/non-mapping value raises AttributeError, which nothing catches (the
   try wraps only request.json()) — modelled as Except.error.  On success
   the pair's second component is the list of notes the deferred background
   task posts after the response. -/
def webhook_handler (payload : Option WPayload) (now : String) :
    Except String (WebhookResult × List Note) :=
  match payload with
  | none => Except.ok ({ ok := false, error := some "invalid json" }, [])
  | some p =>
    match orMeta p.meta with
    | Except.error e => Except.error e
    | Except.ok meta =>
      match resolve_snap p.current p.data DataBlk.current with
      | Except.error e => Except.error e
      | Except.ok current =>
        match resolve_snap p.previous p.data DataBlk.previous with
        | Except.error e => Except.error e
        | Except.ok previous =>
          match snapGet current Snap.id with
          | Except.error e => Except.error e
          | Except.ok cid =>
            match snapGet current Snap.stage_id with
            | Except.error e => Except.error e
            | Except.ok stage_cur =>
              match snapGet previous Snap.stage_id with
              | Except.error e => Except.error e
              | Except.ok stage_prev =>
                Except.ok ({ ok := true },
                  write_note_bg (pyOrPV cid meta.id) stage_prev stage_cur now)

/- ---------- daily sweep ---------- -/

/- The person_id field of a deal as returned by the listing: absent, JSON
   null, a bare scalar, or an embedded reference object carrying "value". -/
inductive PersonField where
  | null
  | int (n : Int)
  | str (s : String)
  | obj (value : Option Int)

structure Deal where
  id : Int
  stage_id : Option Int := none
  person_id : Option PersonField := none
  last_activity_date : Option Int := none

structure EmailEntry where
  value : String

structure Person where
  email : Option (List EmailEntry) := none

structure PersonResp where
  data : Option Person := none

structure Activity where
  subject : String
  type : String
  deal_id : Int
  due_date : Int

/- `d.get("person_id", {}).get("value")`: an absent key yields None, a
   mapping yields its "value" entry, and any non-mapping (null, int, string)
   raises AttributeError. -/
def extract_person_id : Option PersonField → Except String (Option Int)
  | none => Except.ok none
  | some (.obj v) => Except.ok v
  | some _ => Except.error "AttributeError"

/- get_person_email: falsy person ids short-circuit to None; otherwise the
   /persons/{id} lookup (which may raise) is consulted and the first entry of
   the email list is used, None when the list is missing or empty. -/
def get_person_email (persons : Int → Except String PersonResp) :
    Option Int → Except String (Option String)
  | none => Except.ok none
  | some n =>
    if n = 0 then Except.ok none
    else
      match persons n with
      | Except.error e => Except.error e
      | Except.ok resp =>
        match (resp.data.getD {}).email with
        | some (e :: _) => Except.ok (some e.value)
        | _ => Except.ok none

/- deal_last_activity_age_days: 999 when no last_activity_date is recorded,
   otherwise the day difference between today and the recorded date. -/
def deal_last_activity_age_days (today : Int) (d : Deal) : Int :=
  match d.last_activity_date with
  | none => 999
  | some lad => today - lad

/- add_activity: posts a "call" activity due `due_in_days` days from now. -/
def add_activity (today : Int) (deal_id : Int) (subject : String) (due_in_days : Int) :
    Activity :=
  { subject := subject, type := "call", deal_id := deal_id, due_date := today + due_in_days }

/- External effects accumulated by the sweep: email-capability invocations
   (recipient, subject), notes posted, activities posted, and the two
   counters of the `processed` dict. -/
structure Eff where
  emails : List (String × String) := []
  notes : List Note := []
  acts : List Activity := []
  kk : Nat := 0
  ts : Nat := 0

def noEff : Eff := {}

def Eff.append (a b : Eff) : Eff :=
  { emails := a.emails ++ b.emails, notes := a.notes ++ b.notes,
    acts := a.acts ++ b.acts, kk := a.kk + b.kk, ts := a.ts + b.ts }

def kkSubject : String := "Skal vi booke gratis befaring? – Softvask Norge"

def tsSubject : String := "Spørsmål til tilbudet vårt? – Softvask Norge"

def kkBody : String :=
  "Hei!\n\nVille bare følge opp om du fortsatt ønsker pris på tak/fasadevask. Vi kan ta en gratis befaring når det passer.\n\n– Johan, Softvask Norge"

def tsBody : String :=
  "Hei!\n\nVille bare sjekke om du har sett på tilbudet. Gi meg beskjed om du har spørsmål eller ønsker endringer.\n\n– Johan"

def kkNoteText : String := "Auto-oppfølging sendt (Kunde kontaktet)."

def tsNoteText : String := "Auto-oppfølging sendt (Tilbud sendt)."

/- External collaborators and ambient state of one sweep invocation. -/
structure SweepCtx where
  stages : List (String × Int)
  dealsPages : Nat → List Deal
  persons : Int → Except String PersonResp
  send : String → String → String → Bool
  today : Int

/- One of the two follow-up blocks in the per-deal loop body.  When the
   stage matches, the deal is stale enough and the email is truthy, the email
   capability is invoked; on success the source then calls
   `add_note(d["id"], noteText)` — the deal id lands in the `content`
   parameter and the text in the `deal_id` parameter — followed by
   add_activity and the counter increment.  The second component is the
   uncaught exception, if one was raised. -/
def followup_branch (ctx : SweepCtx) (d : Deal) (stageId : Option Int) (minDays : Int)
    (subject body noteText : String) (dueDays : Int) (email : Option String)
    (isKK : Bool) : Eff × Option String :=
  match email with
  | none => ({}, none)
  | some em =>
    if d.stage_id = stageId ∧ minDays ≤ deal_last_activity_age_days ctx.today d ∧ em ≠ "" then
      let e0 : Eff := { emails := [(em, subject)] }
      if ctx.send em subject body then
        match add_note (.pInt d.id) (some (.pStr noteText)) none none none with
        | Except.error e => (e0, some e)
        | Except.ok n =>
          ({ emails := e0.emails,
             notes := [n],
             acts := [add_activity ctx.today d.id "Ring kunden hvis ingen svar" dueDays],
             kk := if isKK then 1 else 0,
             ts := if isKK then 0 else 1 }, none)
      else (e0, none)
    else ({}, none)

/- Lines 158-160 of the loop body: extract the person id, then resolve the
   contact email (either step may raise). -/
def resolve_email (ctx : SweepCtx) (d : Deal) : Except String (Option String) :=
  match extract_person_id d.person_id with
  | Except.error e => Except.error e
  | Except.ok pid => get_person_email ctx.persons pid

/- The whole per-deal loop body: the "Kunde kontaktet" block (threshold 3,
   reminder due in 3 days) runs before the "Tilbud sendt" block (threshold 7,
   reminder due in 4 days); an exception in the first skips the second. -/
def process_deal (ctx : SweepCtx) (kkId tsId : Option Int) (d : Deal) :
    Eff × Option String :=
  match resolve_email ctx d with
  | Except.error e => ({}, some e)
  | Except.ok email =>
    match followup_branch ctx d kkId 3 kkSubject kkBody kkNoteText 3 email true with
    | (e1, some err) => (e1, some err)
    | (e1, none) =>
      match followup_branch ctx d tsId 7 tsSubject tsBody tsNoteText 4 email false with
      | (e2, x2) => (e1.append e2, x2)

/- The `for d in deals` loop: there is no try/except around the body, so the
   first uncaught per-deal exception propagates and ends the sweep. -/
def sweep_deals (ctx : SweepCtx) (kkId tsId : Option Int) : List Deal → Eff × Option String
  | [] => ({}, none)
  | d :: rest =>
    match process_deal ctx kkId tsId d with
    | (e1, some err) => (e1, some err)
    | (e1, none) =>
      match sweep_deals ctx kkId tsId rest with
      | (e2, x2) => (e1.append e2, x2)

/- The dict comprehension {s["name"]: s["id"] for s in stages} followed by
   .get(name): the last record with a given name wins. -/
def stage_lookup (stages : List (String × Int)) (name : String) : Option Int :=
  stages.foldl (fun acc p => if p.1 = name then some p.2 else acc) none

/- The pagination loop: fetch at offset `start`, append, stop on the first
   page shorter than 500, otherwise advance the offset by 500.  `fuel` only
   makes the recursion total (`none` = fuel exhausted before the loop ended);
   the second component counts the fetch calls issued. -/
def fetch_pages {α : Type} (pages : Nat → List α) : Nat → Nat → Option (List α × Nat)
  | 0, _ => none
  | fuel + 1, start =>
    let chunk := pages start
    if chunk.length < 500 then some (chunk, 1)
    else
      match fetch_pages pages fuel (start + 500) with
      | none => none
      | some (rest, c) => some (chunk ++ rest, c + 1)

/- POST /daily-sweep: resolve the two threshold stage ids, page through the
   open deals, run the loop; the response carries the two counters, unless an
   uncaught exception ended the request (Except.error). -/
def daily_sweep (ctx : SweepCtx) (fuel : Nat) :
    Option (Eff × Except String (Nat × Nat)) :=
  let kkId := stage_lookup ctx.stages "Kunde kontaktet"
  let tsId := stage_lookup ctx.stages "Tilbud sendt"
  match fetch_pages ctx.dealsPages fuel 0 with
  | none => none
  | some (deals, _) =>
    let r := sweep_deals ctx kkId tsId deals
    some (r.1, match r.2 with
      | some e => Except.error e
      | none => Except.ok (r.1.kk, r.1.ts))

/- ---------- concrete instances used by witnesses and counterexamples ---------- -/

def onePage (ds : List Deal) : Nat → List Deal := fun start => if start = 0 then ds else []

def personsFail : Int → Except String PersonResp := fun _ => Except.error "HTTPError: 500"

def person3 : Person := { email := some [{ value := "kunde@example.no" }] }

def resp3 : PersonResp := { data := some person3 }

def persons3 : Int → Except String PersonResp := fun _ => Except.ok resp3

def dealFail : Deal :=
  { id := 1, stage_id := some 10, person_id := some (.obj (some 5)), last_activity_date := none }

def dealIdle : Deal := { id := 2 }

def ctx2 : SweepCtx :=
  { stages := [("Kunde kontaktet", 10), ("Tilbud sendt", 20)],
    dealsPages := onePage [dealFail, dealIdle],
    persons := personsFail,
    send := fun _ _ _ => true,
    today := 0 }

def deal3 : Deal := { id := 7, person_id := some (.obj (some 9)) }

def dealS : Deal := { id := 3, stage_id := some 99 }

def ctx3 : SweepCtx :=
  { stages := [("Annet", 1)],
    dealsPages := onePage [deal3],
    persons := persons3,
    send := fun _ _ _ => true,
    today := 0 }

def pages1137 : Nat → List Nat := fun start => ((List.range 1137).drop start).take 500

def pages500 : Nat → List Nat := fun start => ((List.range 500).drop start).take 500

def c1payload : WPayload :=
  { current := .dict { id := some (.pInt 42), stage_id := some (.pInt 5) },
    previous := .dict { stage_id := some (.pInt 3) } }

def wpEmpty : WPayload := {}

/- The body {"data": null}: parses as JSON, carries no deal id anywhere. -/
def wpNullData : WPayload := { data := .wnull }

def ctx6 : SweepCtx :=
  { stages := [], dealsPages := onePage [], persons := personsFail,
    send := fun _ _ _ => false, today := 0 }

def deal6 : Deal := { id := 4 }

def ctx8 : SweepCtx :=
  { stages := [], dealsPages := onePage [], persons := persons3,
    send := fun _ _ _ => true, today := 100 }

def deal8at : Deal :=
  { id := 8, stage_id := some 11, person_id := some (.obj (some 9)),
    last_activity_date := some 97 }

def deal8under : Deal :=
  { id := 8, stage_id := some 11, person_id := some (.obj (some 9)),
    last_activity_date := some 98 }

def deal8none : Deal := { id := 9 }

def dealScalar : Deal := { id := 5, person_id := some (.int 7) }

/-- Helper: the two follow-up email subjects are distinct strings. -/
theorem kk_ts_subject_ne : kkSubject ≠ tsSubject := by decide

/-- Helper: any email recorded by a follow-up block carries that block's
subject, and implies the block's stage match and staleness guard held. -/
theorem branch_emails (ctx : SweepCtx) (d : Deal) (stageId : Option Int) (minDays : Int)
    (subject body noteText : String) (dueDays : Int) (email : Option String) (isKK : Bool)
    (p : String × String)
    (hp : p ∈ (followup_branch ctx d stageId minDays subject body noteText dueDays email isKK).1.emails) :
    p.2 = subject ∧ d.stage_id = stageId ∧ minDays ≤ deal_last_activity_age_days ctx.today d := by
  unfold followup_branch at hp
  cases email with
  | none => simp at hp
  | some em =>
    dsimp only at hp
    by_cases hc : d.stage_id = stageId ∧ minDays ≤ deal_last_activity_age_days ctx.today d ∧ em ≠ ""
    · rw [if_pos hc] at hp
      obtain ⟨h1, h2, _⟩ := hc
      split at hp
      · split at hp
        all_goals simp_all
      · simp_all
    · rw [if_neg hc] at hp
      simp at hp

/-- Helper: a nonzero counter coming out of a follow-up block implies the
block's stage matched and identifies which block it was. -/
theorem branch_counters (ctx : SweepCtx) (d : Deal) (stageId : Option Int) (minDays : Int)
    (subject body noteText : String) (dueDays : Int) (email : Option String) (isKK : Bool) :
    ((followup_branch ctx d stageId minDays subject body noteText dueDays email isKK).1.kk ≠ 0 →
        d.stage_id = stageId ∧ isKK = true)
  ∧ ((followup_branch ctx d stageId minDays subject body noteText dueDays email isKK).1.ts ≠ 0 →
        d.stage_id = stageId ∧ isKK = false) := by
  unfold followup_branch
  cases email with
  | none => simp
  | some em =>
    dsimp only
    by_cases hc : d.stage_id = stageId ∧ minDays ≤ deal_last_activity_age_days ctx.today d ∧ em ≠ ""
    · rw [if_pos hc]
      obtain ⟨h1, _, _⟩ := hc
      constructor
      · intro hk
        refine ⟨h1, ?_⟩
        by_cases hs : ctx.send em subject body
        · rw [if_pos hs] at hk
          split at hk
          · simp at hk
          · simp at hk
            cases isKK with
            | true => rfl
            | false => simp at hk
        · rw [if_neg hs] at hk
          simp at hk
      · intro ht
        refine ⟨h1, ?_⟩
        by_cases hs : ctx.send em subject body
        · rw [if_pos hs] at ht
          split at ht
          · simp at ht
          · simp at ht
            cases isKK with
            | true => simp at ht
            | false => rfl
        · rw [if_neg hs] at ht
          simp at ht
    · rw [if_neg hc]
      simp

/-- Helper: when the email capability always reports failure, a follow-up
block posts no note, schedules no activity, raises nothing and leaves both
counters at zero. -/
theorem branch_send_false (ctx : SweepCtx) (d : Deal) (stageId : Option Int) (minDays : Int)
    (subject body noteText : String) (dueDays : Int) (email : Option String) (isKK : Bool)
    (hs : ∀ e s b, ctx.send e s b = false) :
    ∃ e : Eff, followup_branch ctx d stageId minDays subject body noteText dueDays email isKK = (e, none)
      ∧ e.notes = [] ∧ e.acts = [] ∧ e.kk = 0 ∧ e.ts = 0 := by
  unfold followup_branch
  cases email with
  | none => exact ⟨{}, rfl, rfl, rfl, rfl, rfl⟩
  | some em =>
    dsimp only
    by_cases hc : d.stage_id = stageId ∧ minDays ≤ deal_last_activity_age_days ctx.today d ∧ em ≠ ""
    · rw [if_pos hc, hs em subject body]
      exact ⟨{ emails := [(em, subject)] }, by simp, rfl, rfl, rfl, rfl⟩
    · rw [if_neg hc]
      exact ⟨{}, rfl, rfl, rfl, rfl, rfl⟩

/-- Helper: any email sent while processing one deal belongs to one of the
two blocks, whose stage and staleness guards therefore held. -/
theorem process_deal_emails (ctx : SweepCtx) (kkId tsId : Option Int) (d : Deal)
    (p : String × String)
    (hp : p ∈ (process_deal ctx kkId tsId d).1.emails) :
    (p.2 = kkSubject ∧ d.stage_id = kkId ∧ 3 ≤ deal_last_activity_age_days ctx.today d)
  ∨ (p.2 = tsSubject ∧ d.stage_id = tsId ∧ 7 ≤ deal_last_activity_age_days ctx.today d) := by
  unfold process_deal at hp
  cases hre : resolve_email ctx d with
  | error e => rw [hre] at hp; simp at hp
  | ok email =>
    rw [hre] at hp
    dsimp only at hp
    cases hb1 : followup_branch ctx d kkId 3 kkSubject kkBody kkNoteText 3 email true with
    | mk e1 x1 =>
      rw [hb1] at hp
      cases x1 with
      | some err =>
        dsimp only at hp
        exact Or.inl (branch_emails ctx d kkId 3 kkSubject kkBody kkNoteText 3 email true p
          (by rw [hb1]; exact hp))
      | none =>
        dsimp only at hp
        cases hb2 : followup_branch ctx d tsId 7 tsSubject tsBody tsNoteText 4 email false with
        | mk e2 x2 =>
          rw [hb2] at hp
          dsimp only [Eff.append] at hp
          rcases List.mem_append.mp hp with h | h
          · exact Or.inl (branch_emails ctx d kkId 3 kkSubject kkBody kkNoteText 3 email true p
              (by rw [hb1]; exact h))
          · exact Or.inr (branch_emails ctx d tsId 7 tsSubject tsBody tsNoteText 4 email false p
              (by rw [hb2]; exact h))

/-- Helper: a nonzero Kunde-kontaktet counter from one deal implies the
deal's stage equalled the resolved Kunde-kontaktet stage id. -/
theorem process_deal_kk_stage (ctx : SweepCtx) (kkId tsId : Option Int) (d : Deal)
    (h : (process_deal ctx kkId tsId d).1.kk ≠ 0) : d.stage_id = kkId := by
  unfold process_deal at h
  cases hre : resolve_email ctx d with
  | error e => rw [hre] at h; simp at h
  | ok email =>
    rw [hre] at h
    dsimp only at h
    cases hb1 : followup_branch ctx d kkId 3 kkSubject kkBody kkNoteText 3 email true with
    | mk e1 x1 =>
      rw [hb1] at h
      cases x1 with
      | some err =>
        dsimp only at h
        exact ((branch_counters ctx d kkId 3 kkSubject kkBody kkNoteText 3 email true).1
          (by rw [hb1]; exact h)).1
      | none =>
        dsimp only at h
        cases hb2 : followup_branch ctx d tsId 7 tsSubject tsBody tsNoteText 4 email false with
        | mk e2 x2 =>
          rw [hb2] at h
          dsimp only [Eff.append] at h
          have he2 : e2.kk = 0 := by
            by_contra hne
            have := ((branch_counters ctx d tsId 7 tsSubject tsBody tsNoteText 4 email false).1
              (by rw [hb2]; exact hne)).2
            simp at this
          have he1 : e1.kk ≠ 0 := by omega
          exact ((branch_counters ctx d kkId 3 kkSubject kkBody kkNoteText 3 email true).1
            (by rw [hb1]; exact he1)).1

/-- Helper: a nonzero Tilbud-sendt counter from one deal implies the deal's
stage equalled the resolved Tilbud-sendt stage id. -/
theorem process_deal_ts_stage (ctx : SweepCtx) (kkId tsId : Option Int) (d : Deal)
    (h : (process_deal ctx kkId tsId d).1.ts ≠ 0) : d.stage_id = tsId := by
  unfold process_deal at h
  cases hre : resolve_email ctx d with
  | error e => rw [hre] at h; simp at h
  | ok email =>
    rw [hre] at h
    dsimp only at h
    cases hb1 : followup_branch ctx d kkId 3 kkSubject kkBody kkNoteText 3 email true with
    | mk e1 x1 =>
      rw [hb1] at h
      cases x1 with
      | some err =>
        dsimp only at h
        have := ((branch_counters ctx d kkId 3 kkSubject kkBody kkNoteText 3 email true).2
          (by rw [hb1]; exact h)).2
        simp at this
      | none =>
        dsimp only at h
        cases hb2 : followup_branch ctx d tsId 7 tsSubject tsBody tsNoteText 4 email false with
        | mk e2 x2 =>
          rw [hb2] at h
          dsimp only [Eff.append] at h
          have he1 : e1.ts = 0 := by
            by_contra hne
            have := ((branch_counters ctx d kkId 3 kkSubject kkBody kkNoteText 3 email true).2
              (by rw [hb1]; exact hne)).2
            simp at this
          have he2 : e2.ts ≠ 0 := by omega
          exact ((branch_counters ctx d tsId 7 tsSubject tsBody tsNoteText 4 email false).2
            (by rw [hb2]; exact he2)).1

/-- C1: the claim says a webhook payload with a deal id leads to exactly one
posted note with content "Webhook: stage {prev} -> {cur} @ {timestamp}"
linked to the deal via deal_id.  The code instead calls add_note(deal_id,
msg), binding the deal id to the content parameter and the message to the
deal_id parameter; the message fails int() coercion, no link key is set,
add_note raises, the exception is swallowed, and no note is ever posted.
Evaluated here on a payload carrying deal id 42 and stage ids 3 -> 5: the
handler acknowledges but the background task posts zero notes. -/
theorem c1_webhook_note_lost :
    webhook_handler (some c1payload) "2026-01-01T00:00:00" =
      Except.ok ({ ok := true, error := none }, []) := rfl

set_option maxRecDepth 100000 in
/-- C4: the deal listing paginates with page size 500 from offset 0,
advancing by 500 and stopping after the first short page: over a 1137-deal
listing it issues exactly 3 fetch calls and collects all 1137 deals in
order, and over an exactly-500-deal listing it issues exactly 2 fetch calls
(the full page triggers one more, empty, fetch). -/
theorem c4_pagination :
    fetch_pages pages1137 5 0 = some (List.range 1137, 3)
  ∧ fetch_pages pages500 5 0 = some (List.range 500, 2) := ⟨rfl, rfl⟩

/-- Helper: the background task posts nothing when the deal id is falsy. -/
theorem write_note_bg_falsy (did : Option PV) (prev cur : Option PV) (now : String)
    (h : pvOptTruthy did = false) : write_note_bg did prev cur now = [] := by
  unfold write_note_bg
  cases did with
  | none => rfl
  | some dv =>
    simp only [pvOptTruthy] at h
    dsimp only
    rw [if_neg (by simp [h])]

/-- C7 counterexample: the body with data = null parses as JSON and carries
no deal id anywhere, yet the handler does not acknowledge: the default in
payload.get("data", {}) covers only an absent key, so .get("current")
runs on None and raises AttributeError, which nothing catches (the try
wraps only the JSON parse), so the request fails instead of returning
ok=true — refuting the claim that every id-less JSON payload is
acknowledged. -/
theorem c7_ack_fails :
    webhook_handler (some wpNullData) "t" = Except.error "AttributeError" := rfl

/-- C7 (amended): a JSON payload with no extractable deal id (neither
current.id nor meta.id truthy) is acknowledged with ok=true and zero posted
notes, provided none of the handler's .get chains raises: meta dereferences
cleanly, current and previous resolve cleanly, and the resolved snapshots
admit the id reads.  A payload whose data (or meta, or resolved
current/previous) slot holds null or a non-mapping instead raises
AttributeError and returns no acknowledgment. -/
theorem c7_missing_id (p : WPayload) (now : String) (meta : MetaBlk)
    (current previous : WField Snap) (cid sprev : Option PV)
    (h1 : orMeta p.meta = Except.ok meta)
    (h2 : resolve_snap p.current p.data DataBlk.current = Except.ok current)
    (h3 : resolve_snap p.previous p.data DataBlk.previous = Except.ok previous)
    (h4 : snapGet current Snap.id = Except.ok cid)
    (h5 : snapGet previous Snap.stage_id = Except.ok sprev)
    (h6 : pvOptTruthy (pyOrPV cid meta.id) = false) :
    webhook_handler (some p) now = Except.ok ({ ok := true, error := none }, []) := by
  have hcur : current = .absent ∨ ∃ s, current = .dict s := by
    cases current with
    | absent => exact Or.inl rfl
    | dict s => exact Or.inr ⟨s, rfl⟩
    | scalar v => simp [snapGet] at h4
    | wnull => simp [snapGet] at h4
  unfold webhook_handler
  dsimp only
  rw [h1]
  dsimp only
  rw [h2]
  dsimp only
  rw [h3]
  dsimp only
  rw [h4]
  dsimp only
  rcases hcur with hc | ⟨s, hc⟩ <;> subst hc
  · rw [show snapGet WField.absent Snap.stage_id = Except.ok none from rfl]
    dsimp only
    rw [h5]
    dsimp only
    rw [write_note_bg_falsy (pyOrPV cid meta.id) sprev none now h6]
  · rw [show snapGet (WField.dict s) Snap.stage_id = Except.ok s.stage_id from rfl]
    dsimp only
    rw [h5]
    dsimp only
    rw [write_note_bg_falsy (pyOrPV cid meta.id) sprev s.stage_id now h6]

/-- Witness for the amended C7 at the empty payload. -/
theorem c7_missing_id_witness :
    webhook_handler (some wpEmpty) "t" = Except.ok ({ ok := true, error := none }, []) :=
  c7_missing_id wpEmpty "t" {} (.dict {}) (.dict {}) none none rfl rfl rfl rfl rfl rfl

/-- C10: the resolved contact email is the value field of the first entry of
the person's email list whenever that list is present and non-empty — for
every tail, so entries beyond the first are never consulted — and is None
when the list is missing or empty. -/
theorem c10_first_email :
    (∀ (persons : Int → Except String PersonResp) (n : Int) (resp : PersonResp)
        (p : Person) (e : EmailEntry) (rest : List EmailEntry),
        n ≠ 0 → persons n = Except.ok resp → resp.data = some p →
        p.email = some (e :: rest) →
        get_person_email persons (some n) = Except.ok (some e.value))
  ∧ (∀ (persons : Int → Except String PersonResp) (n : Int) (resp : PersonResp)
        (p : Person),
        n ≠ 0 → persons n = Except.ok resp → resp.data = some p →
        (p.email = none ∨ p.email = some []) →
        get_person_email persons (some n) = Except.ok none) := by
  constructor
  · intro persons n resp p e rest hn hp hd he
    unfold get_person_email
    dsimp only
    rw [if_neg hn, hp]
    dsimp only
    rw [hd]
    dsimp only [Option.getD]
    rw [he]
  · intro persons n resp p hn hp hd he
    unfold get_person_email
    dsimp only
    rw [if_neg hn, hp]
    dsimp only
    rw [hd]
    dsimp only [Option.getD]
    rcases he with he | he <;> rw [he]

/-- Witness for C10 at a concrete one-entry email list. -/
theorem c10_first_email_witness :
    get_person_email persons3 (some 9) = Except.ok (some "kunde@example.no") :=
  c10_first_email.1 persons3 9 resp3 person3 { value := "kunde@example.no" } []
    (by decide) rfl rfl rfl

/-- C5: when both a deal id and a person id are supplied and the deal id
coerces to an integer, the posted note payload links via deal_id and never
person_id; when no linkable identifier is supplied add_note raises instead
of posting; and every successfully posted note carries exactly one of the
four link keys. -/
theorem c5_note_link :
    (∀ (c dv pv : PV) (n : Int), pyInt (extract_id dv) = some n →
        add_note c (some dv) (some pv) none none =
          Except.ok { content := c, deal_id := some n, person_id := none,
                      org_id := none, lead_id := none })
  ∧ (∀ c : PV, add_note c none none none none = Except.error noLinkError)
  ∧ (∀ (c : PV) (di pi oi li : Option PV) (note : Note),
        add_note c di pi oi li = Except.ok note →
        (if note.deal_id.isSome then 1 else 0) + (if note.person_id.isSome then 1 else 0)
          + (if note.org_id.isSome then 1 else 0) + (if note.lead_id.isSome then 1 else 0) = 1) := by
  refine ⟨?_, ?_, ?_⟩
  · intro c dv pv n h
    simp [add_note, h]
  · intro c
    rfl
  · intro c di pi oi li note h
    cases hdk : di.bind fun v => pyInt (extract_id v) with
    | some k =>
      have hv : add_note c di pi oi li =
          Except.ok { content := c, deal_id := some k, person_id := none, org_id := none, lead_id := none } := by
        simp [add_note, hdk]
      rw [hv] at h
      injection h with h
      subst h
      simp
    | none =>
      cases hpk : pi.bind fun v => pyInt (extract_id v) with
      | some k =>
        have hv : add_note c di pi oi li =
            Except.ok { content := c, deal_id := none, person_id := some k, org_id := none, lead_id := none } := by
          simp [add_note, hdk, hpk]
        rw [hv] at h
        injection h with h
        subst h
        simp
      | none =>
        cases hout : oi.bind fun v => pyInt (extract_id v) with
        | some k =>
          have hv : add_note c di pi oi li =
              Except.ok { content := c, deal_id := none, person_id := none, org_id := some k, lead_id := none } := by
            simp [add_note, hdk, hpk, hout]
          rw [hv] at h
          injection h with h
          subst h
          simp
        | none =>
          cases hli : li with
          | some v =>
            have hv : add_note c di pi oi li =
                Except.ok { content := c, deal_id := none, person_id := none, org_id := none, lead_id := some (pyStr (extract_id v)) } := by
              simp [add_note, hdk, hpk, hout, hli]
            rw [hv] at h
            injection h with h
            subst h
            simp
          | none =>
            have hv : add_note c di pi oi li = Except.error noLinkError := by
              simp [add_note, hdk, hpk, hout, hli]
            rw [hv] at h
            cases h

/-- Witness for C5 with deal id 5 and person id 6 both supplied. -/
theorem c5_note_link_witness :
    add_note (.pStr "hei") (some (.pInt 5)) (some (.pInt 6)) none none =
      Except.ok { content := .pStr "hei", deal_id := some 5, person_id := none,
                  org_id := none, lead_id := none } :=
  c5_note_link.1 (.pStr "hei") (.pInt 5) (.pInt 6) 5 rfl

/-- C9: extracting the person id from a deal is only total when the
person_id field is absent or a mapping: a present scalar (null, int or
string) raises AttributeError, and the first such deal makes the sweep loop
return that exception with no effects and no counts; under the precondition
(absent or mapping) the extraction always succeeds. -/
theorem c9_person_guard :
    (∀ pf : PersonField,
        pf = PersonField.null ∨ (∃ n, pf = PersonField.int n) ∨ (∃ s, pf = PersonField.str s) →
        extract_person_id (some pf) = Except.error "AttributeError")
  ∧ (∀ (ctx : SweepCtx) (kkId tsId : Option Int) (d : Deal) (rest : List Deal) (msg : String),
        extract_person_id d.person_id = Except.error msg →
        sweep_deals ctx kkId tsId (d :: rest) = (noEff, some msg))
  ∧ (∀ pf : Option PersonField,
        pf = none ∨ (∃ v, pf = some (PersonField.obj v)) →
        ∃ r, extract_person_id pf = Except.ok r) := by
  refine ⟨?_, ?_, ?_⟩
  · intro pf h
    rcases h with h | ⟨n, h⟩ | ⟨s, h⟩ <;> subst h <;> rfl
  · intro ctx kkId tsId d rest msg h
    have hre : resolve_email ctx d = Except.error msg := by
      unfold resolve_email
      rw [h]
    have hpd : process_deal ctx kkId tsId d = (noEff, some msg) := by
      unfold process_deal
      rw [hre]
      rfl
    unfold sweep_deals
    rw [hpd]
  · intro pf h
    rcases h with h | ⟨v, h⟩ <;> subst h
    · exact ⟨none, rfl⟩
    · exact ⟨v, rfl⟩

/-- Witness for C9: a deal whose person_id is the scalar 7 aborts the sweep. -/
theorem c9_person_guard_witness :
    sweep_deals ctx2 (some 10) (some 20) [dealScalar] = (noEff, some "AttributeError") :=
  c9_person_guard.2.1 ctx2 (some 10) (some 20) dealScalar [] "AttributeError" rfl

/-- C6: if no email address was resolved for a deal's contact, processing
that deal performs no side effect at all; and if the email capability
reports failure on every call, processing the deal posts no note, schedules
no activity and increments neither counter. -/
theorem c6_email_gate :
    (∀ (ctx : SweepCtx) (kkId tsId : Option Int) (d : Deal),
        resolve_email ctx d = Except.ok none →
        process_deal ctx kkId tsId d = (noEff, none))
  ∧ (∀ (ctx : SweepCtx) (kkId tsId : Option Int) (d : Deal),
        (∀ e s b, ctx.send e s b = false) →
        (process_deal ctx kkId tsId d).1.notes = []
      ∧ (process_deal ctx kkId tsId d).1.acts = []
      ∧ (process_deal ctx kkId tsId d).1.kk = 0
      ∧ (process_deal ctx kkId tsId d).1.ts = 0) := by
  constructor
  · intro ctx kkId tsId d h
    unfold process_deal
    rw [h]
    rfl
  · intro ctx kkId tsId d hs
    cases hre : resolve_email ctx d with
    | error e =>
      unfold process_deal
      rw [hre]
      exact ⟨rfl, rfl, rfl, rfl⟩
    | ok email =>
      obtain ⟨f1, hc1, hn1, ha1, hk1, ht1⟩ :=
        branch_send_false ctx d kkId 3 kkSubject kkBody kkNoteText 3 email true hs
      obtain ⟨f2, hc2, hn2, ha2, hk2, ht2⟩ :=
        branch_send_false ctx d tsId 7 tsSubject tsBody tsNoteText 4 email false hs
      unfold process_deal
      rw [hre]
      dsimp only
      rw [hc1]
      dsimp only
      rw [hc2]
      dsimp only [Eff.append]
      exact ⟨by simp [hn1, hn2], by simp [ha1, ha2], by simp [hk1, hk2], by simp [ht1, ht2]⟩

/-- Witness for C6 on a deal with no associated person and an always-failing sender. -/
theorem c6_email_gate_witness :
    process_deal ctx6 (some 1) (some 2) deal6 = (noEff, none)
  ∧ (process_deal ctx6 (some 1) (some 2) deal6).1.notes = []
  ∧ (process_deal ctx6 (some 1) (some 2) deal6).1.acts = []
  ∧ (process_deal ctx6 (some 1) (some 2) deal6).1.kk = 0
  ∧ (process_deal ctx6 (some 1) (some 2) deal6).1.ts = 0 :=
  ⟨c6_email_gate.1 ctx6 (some 1) (some 2) deal6 rfl,
   c6_email_gate.2 ctx6 (some 1) (some 2) deal6 (fun _ _ _ => rfl)⟩

/-- C8: staleness is 999 when no last_activity_date is recorded, making such
deals eligible for every threshold at most 999; any follow-up email sent
for a deal implies its staleness reached that block's threshold (3 for
Kunde kontaktet, 7 for Tilbud sendt); and concretely a deal at staleness
exactly 3 fires the Kunde-kontaktet email while a deal at staleness 2 fires
nothing. -/
theorem c8_staleness :
    (∀ (today : Int) (d : Deal), d.last_activity_date = none →
        deal_last_activity_age_days today d = 999)
  ∧ (∀ (today : Int) (d : Deal) (t : Int), d.last_activity_date = none → t ≤ 999 →
        t ≤ deal_last_activity_age_days today d)
  ∧ (∀ (ctx : SweepCtx) (kkId tsId : Option Int) (d : Deal) (p : String × String),
        p ∈ (process_deal ctx kkId tsId d).1.emails →
        (p.2 = kkSubject → 3 ≤ deal_last_activity_age_days ctx.today d)
      ∧ (p.2 = tsSubject → 7 ≤ deal_last_activity_age_days ctx.today d))
  ∧ (process_deal ctx8 (some 11) (some 12) deal8at).1.emails = [("kunde@example.no", kkSubject)]
  ∧ (process_deal ctx8 (some 11) (some 12) deal8under).1.emails = [] := by
  refine ⟨?_, ?_, ?_, rfl, rfl⟩
  · intro today d h
    unfold deal_last_activity_age_days
    rw [h]
  · intro today d t h ht
    unfold deal_last_activity_age_days
    rw [h]
    exact ht
  · intro ctx kkId tsId d p hp
    rcases process_deal_emails ctx kkId tsId d p hp with ⟨h1, _, h3⟩ | ⟨h1, _, h3⟩
    · constructor
      · intro _
        exact h3
      · intro h2
        exact absurd (h1.symm.trans h2) kk_ts_subject_ne
    · constructor
      · intro h2
        exact absurd (h2.symm.trans h1) kk_ts_subject_ne
      · intro _
        exact h3

/-- Witness for C8 at staleness 999 and at the exact threshold 3. -/
theorem c8_staleness_witness :
    deal_last_activity_age_days 100 deal8none = 999
  ∧ (3 : Int) ≤ deal_last_activity_age_days 100 deal8none
  ∧ (3 : Int) ≤ deal_last_activity_age_days ctx8.today deal8at :=
  ⟨c8_staleness.1 100 deal8none rfl,
   c8_staleness.2.1 100 deal8none 3 rfl (by decide),
   (c8_staleness.2.2.1 ctx8 (some 11) (some 12) deal8at ("kunde@example.no", kkSubject)
      (List.Mem.head _)).1 rfl⟩

/-- C2 counterexample: a sweep whose first deal's person lookup raises
HTTPError returns that exception and no aggregate counts, although a second
deal was still waiting to be evaluated — refuting the claim that one deal's
failure only skips that deal. -/
theorem c2_isolation_fails :
    daily_sweep ctx2 3 = some (noEff, Except.error "HTTPError: 500") := rfl

/-- C2 (amended): the per-deal loop has no exception isolation — once the
deals before d processed cleanly, a raising deal d makes the whole sweep
return that exception, so deals after d are never evaluated and no
aggregate counts are returned. -/
theorem c2_sweep_aborts (ctx : SweepCtx) (kkId tsId : Option Int) (ds1 : List Deal)
    (d : Deal) (ds2 : List Deal) (eff : Eff) (err : String)
    (h1 : ∀ x ∈ ds1, (process_deal ctx kkId tsId x).2 = none)
    (h2 : process_deal ctx kkId tsId d = (eff, some err)) :
    (sweep_deals ctx kkId tsId (ds1 ++ d :: ds2)).2 = some err := by
  induction ds1 with
  | nil =>
    rw [List.nil_append]
    unfold sweep_deals
    rw [h2]
  | cons a tl ih =>
    have ha := h1 a (List.mem_cons_self a tl)
    have htl : ∀ x ∈ tl, (process_deal ctx kkId tsId x).2 = none :=
      fun x hx => h1 x (List.mem_cons_of_mem a hx)
    rw [List.cons_append]
    unfold sweep_deals
    cases hpa : process_deal ctx kkId tsId a with
    | mk e1 x1 =>
      rw [hpa] at ha
      dsimp only at ha
      subst ha
      dsimp only
      cases hrest : sweep_deals ctx kkId tsId (tl ++ d :: ds2) with
      | mk e2 x2 =>
        have hx2 := ih htl
        rw [hrest] at hx2
        dsimp only at hx2
        subst hx2
        rfl

/-- Witness for the amended C2 at a two-deal sweep whose first deal raises. -/
theorem c2_sweep_aborts_witness :
    (sweep_deals ctx2 (some 10) (some 20) ([] ++ dealFail :: [dealIdle])).2 =
      some "HTTPError: 500" :=
  c2_sweep_aborts ctx2 (some 10) (some 20) [] dealFail [dealIdle] noEff "HTTPError: 500"
    (by intro x hx; cases hx) rfl

/-- C3 counterexample: with "Kunde kontaktet" absent from the stage catalog,
a deal whose stage_id is itself absent satisfies None == None, so the
threshold fires for it — the follow-up email is sent — and the subsequent
add_note call raises, so an error is raised, refuting both halves of the
claim (nothing fires, no error). -/
theorem c3_absent_stage_fires :
    daily_sweep ctx3 3 =
      some ({ emails := [("kunde@example.no", kkSubject)] }, Except.error noLinkError) := rfl

/-- C3 (amended): when a threshold's stage name is absent from the catalog
its resolved id is None and the threshold never matches any deal whose
stage_id is present — that counter stays 0 and no email with that block's
subject is sent — and the absence itself raises nothing; only a deal with a
null stage_id can still match the absent id. -/
theorem c3_absent_threshold (ctx : SweepCtx) (kkId tsId : Option Int) (d : Deal) (s : Int)
    (hs : d.stage_id = some s) :
    (kkId = none →
        (process_deal ctx kkId tsId d).1.kk = 0
      ∧ ∀ p ∈ (process_deal ctx kkId tsId d).1.emails, p.2 ≠ kkSubject)
  ∧ (tsId = none →
        (process_deal ctx kkId tsId d).1.ts = 0
      ∧ ∀ p ∈ (process_deal ctx kkId tsId d).1.emails, p.2 ≠ tsSubject) := by
  constructor
  · intro hkk
    subst hkk
    have hne : d.stage_id ≠ none := by rw [hs]; exact Option.some_ne_none s
    constructor
    · by_contra hk
      exact hne (process_deal_kk_stage ctx none tsId d hk)
    · intro p hp hpk
      rcases process_deal_emails ctx none tsId d p hp with ⟨_, h2, _⟩ | ⟨h1, _, _⟩
      · exact hne h2
      · exact kk_ts_subject_ne (hpk.symm.trans h1)
  · intro hts
    subst hts
    have hne : d.stage_id ≠ none := by rw [hs]; exact Option.some_ne_none s
    constructor
    · by_contra ht
      exact hne (process_deal_ts_stage ctx kkId none d ht)
    · intro p hp hpt
      rcases process_deal_emails ctx kkId none d p hp with ⟨h1, _, _⟩ | ⟨_, h2, _⟩
      · exact kk_ts_subject_ne (h1.symm.trans hpt)
      · exact hne h2

/-- Witness for the amended C3 on a deal with a present stage id 99. -/
theorem c3_absent_threshold_witness :
    ((none : Option Int) = none →
        (process_deal ctx3 none none dealS).1.kk = 0
      ∧ ∀ p ∈ (process_deal ctx3 none none dealS).1.emails, p.2 ≠ kkSubject)
  ∧ ((none : Option Int) = none →
        (process_deal ctx3 none none dealS).1.ts = 0
      ∧ ∀ p ∈ (process_deal ctx3 none none dealS).1.emails, p.2 ≠ tsSubject) :=
  c3_absent_threshold ctx3 none none dealS 99 rfl
